import Mathlib

/-!
Verification development for the Belevita error-detection and
confidence-scoring engine (`scripts/error_detector.py`,
`scripts/generate_report.py`, `scripts/conversation_analyzer.py`,
`config/settings.py`).

The Python code is shallowly embedded: floats become rationals, dicts become
structures with optional fields, and `round(x, 2)` becomes an explicit
round-half-to-even on rationals.
-/

set_option maxHeartbeats 1000000

/-- Python's built-in round to an integer: round half to even. -/
def pyRoundInt (x : ℚ) : ℤ :=
  let f := ⌊x⌋
  let frac := x - f
  if frac < 1/2 then f
  else if 1/2 < frac then f + 1
  else if f % 2 = 0 then f else f + 1

/-- Python's `round(x, 2)`. -/
def pyRound2 (x : ℚ) : ℚ := (pyRoundInt (x * 100) : ℚ) / 100

/-- Python's `str.lower`, modelled per character. -/
def pyLower (s : String) : String := String.mk (s.data.map Char.toLower)

/-- Python's `str.strip` (whitespace trimming on both ends). -/
def pyStrip (s : String) : String :=
  String.mk (((s.data.dropWhile Char.isWhitespace).reverse.dropWhile
    Char.isWhitespace).reverse)

/-- Python's substring containment test `need in hay`. -/
def pyIn (need hay : String) : Bool :=
  hay.data.tails.any (fun t => need.data.isPrefixOf t)

/-- Python truthiness of an optional string (`None` and `''` are falsy). -/
def pyTruthy : Option String → Bool
  | none => false
  | some s => !(s == "")

/-- One chat message: the inner `message` dict with its `type` and `content`. -/
structure Msg where
  type : String
  content : String
  deriving DecidableEq

/-- A session record as consumed by the engine (missing keys become `none`;
timestamps are modelled as parsed instants in seconds, with `none` standing
for an absent or unparseable timestamp). -/
structure Session where
  id : ℕ
  status : Option String
  started_at : Option ℚ
  ended_at : Option ℚ
  analyse_sentimental : Option String
  messages : List Msg
  message_count : ℕ
  deriving DecidableEq

/-- Result of `ErrorDetector.detect_phrase_errors`: the score, the per-category
match counts and the total number of matched phrases. -/
structure PhraseResult where
  score : ℚ
  error_indicators : ℕ
  frustration_indicators : ℕ
  escalation_phrases : ℕ
  total_matches : ℕ
  deriving DecidableEq

/-- Result of `ErrorDetector.detect_behavioral_errors`. -/
structure BehavioralResult where
  score : ℚ
  patterns : List String
  deriving DecidableEq

/-- Result of `ErrorDetector.detect_sentiment_errors`. -/
structure SentimentResult where
  score : ℚ
  sentiment : Option String
  deriving DecidableEq

/-- The `ERROR_WEIGHTS` configuration dict from `config/settings.py`. -/
structure Weights where
  phrase_matching : ℚ
  behavioral_patterns : ℚ
  ai_analysis : ℚ
  sentiment_correlation : ℚ
  deriving DecidableEq

/-- Shipped configuration `ERROR_WEIGHTS` (0.30 / 0.25 / 0.35 / 0.10). -/
def ERROR_WEIGHTS : Weights := ⟨3/10, 1/4, 7/20, 1/10⟩

/-- The `ERROR_THRESHOLDS` configuration dict from `config/settings.py`. -/
structure Thresholds where
  high : ℚ
  medium : ℚ
  deriving DecidableEq

/-- Shipped configuration `ERROR_THRESHOLDS` (high 70, medium 40). -/
def ERROR_THRESHOLDS : Thresholds := ⟨70, 40⟩

def SHORT_CONVERSATION_THRESHOLD : ℕ := 3

def RAPID_ABANDONMENT_THRESHOLD : ℚ := 120

def STUCK_SESSION_THRESHOLD : ℚ := 1800

def ERROR_DETECTION_SAMPLE_RATE : ℚ := 3/20

/-- The phrase lexicon (`config/error_phrases.json`): the three categories the
detector's `categories` dict is keyed by. -/
structure PhraseLexicon where
  error_indicators : List String
  frustration_indicators : List String
  escalation_phrases : List String
  deriving DecidableEq

/-- Number of lexicon phrases matching one message: the content is lowered,
empty contents are skipped, and each phrase whose lowering is a substring of
the content counts once for this message. -/
def msgMatchCount (phrases : List String) (m : Msg) : ℕ :=
  let content := pyLower m.content
  if content = "" then 0
  else (phrases.filter (fun p => pyIn (pyLower p) content)).length

/-- Total matches of a category's phrase list over all messages. -/
def catCount (phrases : List String) (msgs : List Msg) : ℕ :=
  (msgs.map (msgMatchCount phrases)).sum

/-- Embeds `ErrorDetector.detect_phrase_errors` (error_detector.py 53-121). -/
def detect_phrase_errors (lex : PhraseLexicon) (s : Session) : PhraseResult :=
  if s.messages = [] then ⟨0, 0, 0, 0, 0⟩
  else
    let e := catCount lex.error_indicators s.messages
    let f := catCount lex.frustration_indicators s.messages
    let esc := catCount lex.escalation_phrases s.messages
    let total := e + f + esc
    let score : ℚ :=
      if total = 0 then 0
      else min 100 (((e : ℚ) * 1 + (f : ℚ) * (3/2) + (esc : ℚ) * 2) * 10)
    ⟨pyRound2 score, e, f, esc, total⟩

/-- Duration in seconds when both timestamps are present and parseable;
a parsing failure in the source suppresses both timing patterns, exactly as
an absent timestamp does, so both are `none` here. -/
def parsedDuration (s : Session) : Option ℚ :=
  match s.started_at, s.ended_at with
  | some st, some en => some (en - st)
  | _, _ => none

/-- The trimmed, lowered contents of the non-empty human messages. -/
def humanContents (s : Session) : List String :=
  ((s.messages.filter (fun m => m.type == "human")).map
    (fun m => pyLower (pyStrip m.content))).filter (fun c => !(c == ""))

/-- The triggered behavioral patterns with their fixed score contributions, in
the evaluation order of `ErrorDetector.detect_behavioral_errors`. -/
def behavioralComponents (s : Session) : List (String × ℚ) :=
  let c1 : List (String × ℚ) :=
    if 0 < s.message_count ∧ s.message_count < SHORT_CONVERSATION_THRESHOLD
    then [("short_conversation", 30)] else []
  let c23 : List (String × ℚ) :=
    match parsedDuration s with
    | some d =>
      if 0 < d ∧ d < RAPID_ABANDONMENT_THRESHOLD then [("rapid_abandonment", 40)]
      else if s.status = some "active" ∧ STUCK_SESSION_THRESHOLD < d
      then [("stuck_session", 35)]
      else []
    | none => []
  let c4 : List (String × ℚ) :=
    if s.messages = [] then []
    else
      let dups := (humanContents s).length - (humanContents s).dedup.length
      if 2 ≤ (humanContents s).length ∧ 0 < dups
      then [("repeated_messages", ((25 * min dups 3 : ℕ) : ℚ))] else []
  let c5 : List (String × ℚ) :=
    if s.status = some "failed" then [("failed_session", 50)] else []
  let c6 : List (String × ℚ) :=
    if pyTruthy s.analyse_sentimental = false ∧ s.status = some "active"
    then [("no_sentiment_analysis", 10)] else []
  c1 ++ c23 ++ c4 ++ c5 ++ c6

/-- Embeds `ErrorDetector.detect_behavioral_errors` (error_detector.py
123-210): the score is the mean of the triggered contributions, clamped at
100, then rounded to two decimals. -/
def detect_behavioral_errors (s : Session) : BehavioralResult :=
  let comps := behavioralComponents s
  let score : ℚ :=
    if comps = [] then 0
    else min 100 ((comps.map Prod.snd).sum / (comps.length : ℚ))
  ⟨pyRound2 score, comps.map Prod.fst⟩

/-- Embeds `ErrorDetector.detect_sentiment_errors` (error_detector.py
212-240): a pure lookup on the lowered, stripped sentiment label. -/
def detect_sentiment_errors (s : Session) : SentimentResult :=
  let sentiment := pyStrip (pyLower ((s.analyse_sentimental).getD ""))
  let score : ℚ :=
    if sentiment = "negativo" then 80
    else if sentiment = "neutro" then 15
    else if sentiment = "positivo" then 5
    else 15
  ⟨score, s.analyse_sentimental⟩

/-- Embeds `ErrorDetector.calculate_combined_score` (error_detector.py
242-277): weighted sum of the three available components, renormalized by the
sum of their weights, rounded to two decimals and clamped at 100. -/
def calculate_combined_score (w : Weights) (p b se : ℚ) : ℚ :=
  let combined := p * w.phrase_matching + b * w.behavioral_patterns +
    se * w.sentiment_correlation
  let available := w.phrase_matching + w.behavioral_patterns +
    w.sentiment_correlation
  let normalized := if 0 < available then combined / available else combined
  min 100 (pyRound2 normalized)

/-- An AI judgment record as produced by
`ConversationAnalyzer.analyze_conversation`: either a successful analysis
(`analyzed = true`) or a degraded failure record. -/
structure AIRecord where
  session_id : ℕ
  analyzed : Bool
  score : ℚ
  error : Option String := none
  resolved : Option Bool := none
  understood : Option Bool := none
  had_errors : Option Bool := none
  error_description : Option String := none
  quality : Option String := none
  reasoning : Option String := none
  message_count : Option ℕ := none
  deriving DecidableEq

/-- A per-session analysis record as produced by
`ErrorDetector.analyze_session` and updated by `combine_error_analyses`. -/
structure AnalysisResult where
  session_id : ℕ
  confidence_score : ℚ
  confidence_level : String
  phrase_detection : PhraseResult
  behavioral_patterns : BehavioralResult
  sentiment_correlation : SentimentResult
  has_error : Bool
  ai_analysis : Option AIRecord
  deriving DecidableEq

/-- Embeds `ErrorDetector.analyze_session` (error_detector.py 279-313). -/
def analyze_session (lex : PhraseLexicon) (w : Weights) (t : Thresholds)
    (s : Session) : AnalysisResult :=
  let pr := detect_phrase_errors lex s
  let br := detect_behavioral_errors s
  let sr := detect_sentiment_errors s
  let cs := calculate_combined_score w pr.score br.score sr.score
  { session_id := s.id
    confidence_score := cs
    confidence_level :=
      if t.high ≤ cs then "high" else if t.medium ≤ cs then "medium" else "low"
    phrase_detection := pr
    behavioral_patterns := br
    sentiment_correlation := sr
    has_error := decide (t.medium ≤ cs)
    ai_analysis := none }

/-- The `ErrorDetector` object state after construction. -/
structure ErrorDetector where
  error_phrases : PhraseLexicon
  weights : Weights
  thresholds : Thresholds
  deriving DecidableEq

/-- Embeds `ErrorDetector.__init__` (error_detector.py 29-38): it stores the
loaded lexicon and the configured weights and thresholds, performing no
validation of either. -/
def errorDetectorInit (lex : PhraseLexicon) (w : Weights) (t : Thresholds) :
    Except String ErrorDetector :=
  Except.ok ⟨lex, w, t⟩

/-- Evaluation of the embedded round: case where the fractional part of
`x * 100` above `n` is below one half. -/
theorem pyRoundInt_eq_of_lt (x : ℚ) (n : ℤ) (h1 : (n:ℚ) ≤ x)
    (h2 : x - n < 1/2) : pyRoundInt x = n := by
  have hf : ⌊x⌋ = n := Int.floor_eq_iff.mpr ⟨h1, by linarith⟩
  simp only [pyRoundInt, hf]
  rw [if_pos h2]

/-- Evaluation of the embedded round: fractional part above one half. -/
theorem pyRoundInt_eq_of_gt (x : ℚ) (n : ℤ) (h1 : (n:ℚ) ≤ x)
    (h2 : x < (n:ℚ) + 1) (h3 : 1/2 < x - n) : pyRoundInt x = n + 1 := by
  have hf : ⌊x⌋ = n := Int.floor_eq_iff.mpr ⟨h1, by linarith⟩
  simp only [pyRoundInt, hf]
  rw [if_neg (by linarith), if_pos h3]

/-- Evaluation of the embedded round: exact half with an odd floor rounds up. -/
theorem pyRoundInt_eq_of_half_odd (x : ℚ) (n : ℤ) (h1 : x - n = 1/2)
    (h2 : n % 2 = 1) : pyRoundInt x = n + 1 := by
  have hf : ⌊x⌋ = n := Int.floor_eq_iff.mpr ⟨by linarith, by linarith⟩
  simp only [pyRoundInt, hf]
  rw [if_neg (by linarith), if_neg (by linarith), if_neg (by omega)]

theorem pyRound2_eq_of_lt (x : ℚ) (n : ℤ) (h1 : (n:ℚ) ≤ x * 100)
    (h2 : x * 100 - n < 1/2) : pyRound2 x = (n:ℚ) / 100 := by
  unfold pyRound2
  rw [pyRoundInt_eq_of_lt (x * 100) n h1 h2]

theorem pyRound2_eq_of_gt (x : ℚ) (n : ℤ) (h1 : (n:ℚ) ≤ x * 100)
    (h2 : x * 100 < (n:ℚ) + 1) (h3 : 1/2 < x * 100 - n) :
    pyRound2 x = ((n:ℚ) + 1) / 100 := by
  unfold pyRound2
  rw [pyRoundInt_eq_of_gt (x * 100) n h1 h2 h3]
  push_cast
  ring

theorem pyRound2_eq_of_half_odd (x : ℚ) (n : ℤ) (h1 : x * 100 - n = 1/2)
    (h2 : n % 2 = 1) : pyRound2 x = ((n:ℚ) + 1) / 100 := by
  unfold pyRound2
  rw [pyRoundInt_eq_of_half_odd (x * 100) n h1 h2]
  push_cast
  ring

theorem pyRoundInt_nonneg (x : ℚ) (hx : 0 ≤ x) : 0 ≤ pyRoundInt x := by
  have h0 : (0:ℤ) ≤ ⌊x⌋ := Int.floor_nonneg.mpr hx
  simp only [pyRoundInt]
  split_ifs <;> omega

theorem pyRoundInt_le (x : ℚ) (n : ℤ) (hx : x ≤ (n:ℚ)) : pyRoundInt x ≤ n := by
  have hfl : ⌊x⌋ ≤ n := by
    have := Int.floor_le_floor hx
    simpa using this
  have hle : (⌊x⌋:ℚ) ≤ x := Int.floor_le x
  simp only [pyRoundInt]
  split_ifs with h1 h2 h3
  · exact hfl
  · have hq : (⌊x⌋:ℚ) < (n:ℚ) := by linarith
    have := Int.cast_lt.mp hq
    omega
  · exact hfl
  · have hq : (⌊x⌋:ℚ) < (n:ℚ) := by linarith
    have := Int.cast_lt.mp hq
    omega

theorem pyRound2_nonneg (x : ℚ) (hx : 0 ≤ x) : 0 ≤ pyRound2 x := by
  unfold pyRound2
  have h := pyRoundInt_nonneg (x * 100) (by linarith)
  have hq : (0:ℚ) ≤ (pyRoundInt (x * 100) : ℚ) := by exact_mod_cast h
  linarith

theorem pyRound2_le_100 (x : ℚ) (hx : x ≤ 100) : pyRound2 x ≤ 100 := by
  unfold pyRound2
  have h := pyRoundInt_le (x * 100) 10000 (by push_cast; linarith)
  have hq : ((pyRoundInt (x * 100)) : ℚ) ≤ 10000 := by exact_mod_cast h
  linarith

/-- The parsed JSON payload of a successful AI judgment response
(`conversation_analyzer.py` 155): each key may be absent. -/
structure AIRaw where
  error_score : Option ℚ := none
  resolved : Option Bool := none
  understood : Option Bool := none
  had_errors : Option Bool := none
  error_description : Option String := none
  quality : Option String := none
  reasoning : Option String := none
  deriving DecidableEq

/-- The degraded judgment produced when the model call or the JSON parsing of
its response fails (`conversation_analyzer.py` 170-187). -/
def degradedRecord (s : Session) (e : String) : AIRecord :=
  { session_id := s.id, analyzed := false, score := 50, error := some e }

/-- Embeds `ConversationAnalyzer.analyze_conversation` (conversation_analyzer
82-187). The model call plus response parsing is abstracted as `judge`; an
`Except.error` value stands for any transport or parsing exception, which the
source catches and converts to the degraded record. -/
def analyze_conversation (judge : Session → Except String AIRaw)
    (s : Session) : AIRecord :=
  if s.messages = [] then
    { session_id := s.id, analyzed := false, score := 0,
      error := some "No messages found" }
  else
    match judge s with
    | Except.ok raw =>
      { session_id := s.id, analyzed := true,
        score := raw.error_score.getD 50,
        resolved := some (raw.resolved.getD false),
        understood := some (raw.understood.getD true),
        had_errors := some (raw.had_errors.getD false),
        error_description := some (raw.error_description.getD ""),
        quality := some (raw.quality.getD "razoavel"),
        reasoning := some (raw.reasoning.getD ""),
        message_count := some s.messages.length }
    | Except.error e => degradedRecord s e

/-- Embeds `ConversationAnalyzer.analyze_sessions_parallel`
(conversation_analyzer 272-308). The worker pool joins every future and
collects exactly one result per submitted session; since each judgment is an
independent pure call keyed by its own session, the post-join collection is
modelled as a map in submission order (completion order is unobservable in
the result contents). -/
def analyze_sessions_parallel (judge : Session → Except String AIRaw)
    (sessions : List Session) : List AIRecord :=
  sessions.map (analyze_conversation judge)

/-- The dict comprehension of `combine_error_analyses` (generate_report.py
75): AI results with a truthy `analyzed` flag, keyed by session id, later
entries overwriting earlier ones. -/
def aiLookup (ai : List AIRecord) (sid : ℕ) : Option AIRecord :=
  ((ai.filter (fun r => r.analyzed)).reverse).find? (fun r => r.session_id == sid)

/-- The per-result update of `combine_error_analyses` (generate_report.py
78-107): a result with a successful AI judgment gets the plain four-way
weighted sum, re-classified against the literal thresholds 70 and 40; any
other result is left untouched. -/
def recombine (ai : List AIRecord) (r : AnalysisResult) : AnalysisResult :=
  match aiLookup ai r.session_id with
  | none => r
  | some a =>
    let basic := r.phrase_detection.score * ERROR_WEIGHTS.phrase_matching +
      r.behavioral_patterns.score * ERROR_WEIGHTS.behavioral_patterns +
      r.sentiment_correlation.score * ERROR_WEIGHTS.sentiment_correlation
    let ai_score := a.score * ERROR_WEIGHTS.ai_analysis
    let combined := basic + ai_score
    { r with
      confidence_score := pyRound2 combined
      ai_analysis := some a
      confidence_level :=
        if 70 ≤ combined then "high"
        else if 40 ≤ combined then "medium" else "low"
      has_error := decide (40 ≤ combined) }

/-- Embeds `combine_error_analyses` (generate_report.py 60-121) on the
per-session result list (a falsy `ai_analysis` argument returns the basic
analysis unchanged). -/
def combine_error_analyses (basic : List AnalysisResult)
    (ai : Option (List AIRecord)) : List AnalysisResult :=
  match ai with
  | none => basic
  | some l => if l = [] then basic else basic.map (recombine l)

/-- The ambient state of Python's module-level `random` generator, modelled
abstractly. -/
abbrev RState := ℕ

/-- Model of `random.seed(n)`: the generator state becomes a fixed function
of the seed alone. -/
def seedState (n : ℕ) : RState := n

/-- One deterministic pseudo-random step (a linear congruential update),
standing in for the stdlib generator's next draw. -/
def lcgNext (g : RState) : RState := (g * 1103515245 + 12345) % 2147483648

/-- Model of `random.sample(pop, k)`: draws `k` elements without replacement,
advancing the generator state at each draw. -/
def randomSample {α : Type} : ℕ → List α → RState → List α × RState
  | 0, _, g => ([], g)
  | Nat.succ k, pop, g =>
    if h : 0 < pop.length then
      let g1 := lcgNext g
      let i : Fin pop.length := ⟨g1 % pop.length, Nat.mod_lt _ h⟩
      let rest := randomSample k (pop.eraseIdx i.val) g1
      (pop.get i :: rest.1, rest.2)
    else ([], g)

def sessionIds (l : List Session) : List ℕ := l.map Session.id

/-- The `sessions_dict` lookup (`conversation_analyzer.py` 208): a dict
comprehension keeps the last session with a given id. -/
def dictLookup (sessions : List Session) (sid : ℕ) : Option Session :=
  (sessions.reverse).find? (fun s => s.id == sid)

/-- Priority 1 of `select_sessions_for_analysis` (conversation_analyzer
213-220): every session whose detection result is high confidence. -/
def selPriority1 (sessions : List Session) (results : List AnalysisResult) :
    List Session :=
  results.filterMap (fun r =>
    if r.confidence_level = "high" then dictLookup sessions r.session_id
    else none)

/-- Priority 2 (conversation_analyzer 222-228): add every not-yet-selected
session with sentiment label `Negativo`. -/
def selPriority2 (sessions sel : List Session) : List Session :=
  sel ++ sessions.filter (fun s =>
    decide (s.analyse_sentimental = some "Negativo") &&
      !(decide (s.id ∈ sessionIds sel)))

def selStage2 (sessions : List Session) (results : List AnalysisResult) :
    List Session :=
  selPriority2 sessions (selPriority1 sessions results)

/-- The medium-confidence candidates of priority 3 (conversation_analyzer
230-236). -/
def mediumCandidates (sessions : List Session) (results : List AnalysisResult)
    (sel : List Session) : List Session :=
  results.filterMap (fun r =>
    if r.confidence_level = "medium" ∧ (dictLookup sessions r.session_id).isSome
        ∧ ¬ (r.session_id ∈ sessionIds sel)
    then dictLookup sessions r.session_id else none)

/-- Priority 3 sampling (conversation_analyzer 238-243): `random.seed(42)`
then a 30% sample of the medium-confidence candidates. -/
def selSample3 (sessions : List Session) (results : List AnalysisResult) :
    List Session × RState :=
  let medium := mediumCandidates sessions results (selStage2 sessions results)
  randomSample (min (medium.length * 3 / 10) medium.length) medium (seedState 42)

def selStage3 (sessions : List Session) (results : List AnalysisResult) :
    List Session :=
  selStage2 sessions results ++ (selSample3 sessions results).1

/-- The neutral-sentiment candidates of priority 4 (conversation_analyzer
246-249). -/
def neutralCandidates (sessions sel : List Session) : List Session :=
  sessions.filter (fun s =>
    decide (s.analyse_sentimental = some "Neutro") &&
      !(decide (s.id ∈ sessionIds sel)))

/-- Priority 4 sampling (conversation_analyzer 245-253): a 10% sample of the
remaining neutral-sentiment sessions, continuing the same seeded stream. -/
def selSample4 (sessions : List Session) (results : List AnalysisResult) :
    List Session × RState :=
  let neutral := neutralCandidates sessions (selStage3 sessions results)
  randomSample (min (neutral.length / 10) neutral.length) neutral
    (selSample3 sessions results).2

def selStage4 (sessions : List Session) (results : List AnalysisResult) :
    List Session :=
  selStage3 sessions results ++ (selSample4 sessions results).1

/-- `target_total = int(len(sessions) * rate)` (conversation_analyzer 256). -/
def selTarget (rate : ℚ) (sessions : List Session) : ℕ :=
  Int.toNat ⌊(sessions.length : ℚ) * rate⌋

/-- The sessions not selected by the first four priorities
(conversation_analyzer 260-263). -/
def remainingCandidates (sessions sel : List Session) : List Session :=
  sessions.filter (fun s => !(decide (s.id ∈ sessionIds sel)))

/-- Priority 5 sampling (conversation_analyzer 255-266): top up with a random
sample of the unselected sessions, from the same seeded stream. -/
def selSample5 (rate : ℚ) (sessions : List Session)
    (results : List AnalysisResult) : List Session × RState :=
  let remaining := remainingCandidates sessions (selStage4 sessions results)
  randomSample (min (selTarget rate sessions - (selStage4 sessions results).length)
    remaining.length) remaining (selSample4 sessions results).2

/-- Embeds `ConversationAnalyzer.select_sessions_for_analysis`
(conversation_analyzer 189-270). The incoming generator state `g` models the
ambient `random` module state; the procedure immediately reseeds with the
fixed seed 42, so `g` is never consulted. -/
def select_sessions_for_analysis (rate : ℚ) (sessions : List Session)
    (results : List AnalysisResult) (g : RState) : List Session × RState :=
  if 0 < selTarget rate sessions - (selStage4 sessions results).length then
    (selStage4 sessions results ++ (selSample5 rate sessions results).1,
      (selSample5 rate sessions results).2)
  else
    (selStage4 sessions results, (selSample4 sessions results).2)

theorem aiLookup_mem (ai : List AIRecord) (sid : ℕ) (a : AIRecord)
    (h : aiLookup ai sid = some a) : a ∈ ai := by
  unfold aiLookup at h
  have hm := List.mem_of_find?_eq_some h
  rw [List.mem_reverse] at hm
  exact (List.mem_filter.mp hm).1

theorem aiLookup_analyzed (ai : List AIRecord) (sid : ℕ) (a : AIRecord)
    (h : aiLookup ai sid = some a) : a.analyzed = true := by
  unfold aiLookup at h
  have hm := List.mem_of_find?_eq_some h
  rw [List.mem_reverse] at hm
  exact (List.mem_filter.mp hm).2

/-- C6: given identical sessions, identical error-detection results and the
same target rate, two invocations of the selection procedure agree exactly,
whatever the ambient random-generator state is in each invocation: the
procedure reseeds with the fixed seed 42 before sampling, so the ambient
state never influences the selection. -/
theorem C6_selection_deterministic (rate : ℚ) (sessions : List Session)
    (results : List AnalysisResult) (g g2 : RState) :
    select_sessions_for_analysis rate sessions results g =
      select_sessions_for_analysis rate sessions results g2 := rfl

def sesW8 : Session :=
  { id := 1, status := some "active", started_at := none, ended_at := none,
    analyse_sentimental := some "Negativo",
    messages := [⟨"human", "nao funciona"⟩], message_count := 1 }

def rawW8 : AIRaw := { error_score := some 20 }

def judgeW8 : Session → Except String AIRaw := fun s =>
  if s.id = 1 then Except.error "transport error" else Except.ok rawW8

/-- C8: AI-judgment failures are isolated per session. The joined batch has
one record per submitted session, each record is the pure judgment of its own
session, a transport or parsing exception for one session yields exactly the
degraded record (`analyzed = false`, score 50, reason captured), and a
session's record depends only on the judge's behaviour at that session, so
failures elsewhere in the batch cannot affect it. -/
theorem C8_failures_isolated (judge judge2 : Session → Except String AIRaw)
    (sessions : List Session) (s : Session) (e : String) :
    (analyze_sessions_parallel judge sessions).length = sessions.length ∧
    analyze_sessions_parallel judge sessions =
      sessions.map (analyze_conversation judge) ∧
    (s.messages ≠ [] → judge s = Except.error e →
      analyze_conversation judge s = degradedRecord s e) ∧
    (judge s = judge2 s →
      analyze_conversation judge s = analyze_conversation judge2 s) := by
  refine ⟨List.length_map sessions _, rfl, ?_, ?_⟩
  · intro h1 h2
    unfold analyze_conversation
    rw [if_neg h1, h2]
  · intro h
    unfold analyze_conversation
    rw [h]

theorem C8_witness :
    sesW8.messages ≠ [] ∧
    analyze_conversation judgeW8 sesW8 = degradedRecord sesW8 "transport error" :=
  ⟨by decide,
    (C8_failures_isolated judgeW8 judgeW8 [] sesW8 "transport error").2.2.1
      (by decide) rfl⟩

def lexC9 : PhraseLexicon := ⟨[], [], []⟩

def badWeights : Weights := ⟨1/2, 1/2, 1/2, 1/2⟩

def badThresholds : Thresholds := ⟨150, -10⟩

/-- C9: the claim's fail-fast contract is absent from the code.
`ErrorDetector.__init__` accepts weights that sum to 2.0 and thresholds
outside [0,100] without any error, and scoring proceeds with them (the
combined score of a session with component scores 0/0/15 evaluates to 5
under the invalid weights instead of any startup failure). -/
theorem C9_config_not_validated :
    errorDetectorInit lexC9 badWeights badThresholds =
      Except.ok ⟨lexC9, badWeights, badThresholds⟩ ∧
    badWeights.phrase_matching + badWeights.behavioral_patterns +
      badWeights.ai_analysis + badWeights.sentiment_correlation ≠ 1 ∧
    ¬ (badThresholds.high ≤ 100 ∧ 0 ≤ badThresholds.medium) ∧
    calculate_combined_score badWeights 0 0 15 = 5 := by
  refine ⟨rfl, by norm_num [badWeights], by norm_num [badThresholds], ?_⟩
  simp only [calculate_combined_score, badWeights]
  norm_num
  rw [pyRound2_eq_of_lt 5 500 (by norm_num) (by norm_num)]
  rw [inf_eq_min, min_eq_right (by norm_num)]
  norm_num

/-- C10: recombination only rewrites sessions with a successful AI judgment.
If every AI record for a session's id is degraded (`analyzed = false`) — in
particular if there is none at all — that session's result is returned
bit-for-bit unchanged (same `confidence_score`, `confidence_level`,
`has_error`, and still no attached AI judgment); the whole combination pass
is the per-result map of this update, and a missing AI phase leaves the basic
analysis untouched. -/
theorem C10_degraded_or_missing_unchanged (ai : List AIRecord)
    (basic : List AnalysisResult) (r : AnalysisResult)
    (h : ∀ a ∈ ai, a.session_id = r.session_id → a.analyzed = false) :
    recombine ai r = r ∧
    combine_error_analyses basic (some ai) = basic.map (recombine ai) ∧
    combine_error_analyses basic none = basic := by
  have hlook : aiLookup ai r.session_id = none := by
    unfold aiLookup
    rw [List.find?_eq_none]
    intro a ha
    rw [List.mem_reverse] at ha
    obtain ⟨hmem, hana⟩ := List.mem_filter.mp ha
    simp only [beq_iff_eq]
    intro heq
    rw [h a hmem heq] at hana
    exact Bool.false_ne_true hana
  refine ⟨?_, ?_, rfl⟩
  · unfold recombine
    rw [hlook]
  · show (if ai = [] then basic else basic.map (recombine ai)) =
      basic.map (recombine ai)
    split_ifs with hl
    · subst hl
      have hmap : basic.map (recombine []) = basic.map id :=
        List.map_congr_left (fun r2 _ => rfl)
      rw [hmap, List.map_id]
    · rfl

def aiW10 : AIRecord :=
  { session_id := 9, analyzed := false, score := 50, error := some "boom" }

def rW10 : AnalysisResult :=
  ⟨9, 231/100, "low", ⟨0, 0, 0, 0, 0⟩, ⟨0, []⟩, ⟨15, none⟩, false, none⟩

theorem C10_witness : recombine [aiW10] rW10 = rW10 :=
  (C10_degraded_or_missing_unchanged [aiW10] [] rW10 (by
    intro a ha hid
    simp only [List.mem_singleton] at ha
    subst ha
    rfl)).1

def rC2 : AnalysisResult :=
  ⟨7, 1288/100, "low", ⟨0, 0, 0, 0, 0⟩,
    ⟨55/2, ["short_conversation", "repeated_messages"]⟩,
    ⟨15, some "Neutro"⟩, false, none⟩

def aiC2 : AIRecord := { session_id := 7, analyzed := true, score := 0 }

/-- C2 as literally stated fails on the code: the stored recombined score is
not the plain weighted sum itself but that sum rounded to two decimals. For a
result with component scores 0 / 27.5 / 15 and an AI score of 0, the weighted
sum is 8.375 while the stored `confidence_score` is 8.38. -/
theorem C2_counterexample :
    (recombine [aiC2] rC2).confidence_score = 838/100 ∧
    ¬ ((838:ℚ)/100 =
      rC2.phrase_detection.score * (3/10) + rC2.behavioral_patterns.score * (1/4) +
      rC2.sentiment_correlation.score * (1/10) + aiC2.score * (7/20)) := by
  have hlook : aiLookup [aiC2] rC2.session_id = some aiC2 := rfl
  constructor
  · unfold recombine
    rw [hlook]
    show pyRound2 (rC2.phrase_detection.score * ERROR_WEIGHTS.phrase_matching +
      rC2.behavioral_patterns.score * ERROR_WEIGHTS.behavioral_patterns +
      rC2.sentiment_correlation.score * ERROR_WEIGHTS.sentiment_correlation +
      aiC2.score * ERROR_WEIGHTS.ai_analysis) = 838/100
    rw [show (rC2.phrase_detection.score * ERROR_WEIGHTS.phrase_matching +
      rC2.behavioral_patterns.score * ERROR_WEIGHTS.behavioral_patterns +
      rC2.sentiment_correlation.score * ERROR_WEIGHTS.sentiment_correlation +
      aiC2.score * ERROR_WEIGHTS.ai_analysis : ℚ) = 67/8 from by
        norm_num [rC2, aiC2, ERROR_WEIGHTS]]
    rw [pyRound2_eq_of_half_odd (67/8) 837 (by norm_num) (by norm_num)]
    norm_num
  · norm_num [rC2, aiC2]

/-- C2 amended: when a session has a successful AI judgment, the recombined
classification value is the plain (non-renormalized) weighted sum of the four
component scores under the full weight set — which sums to 1.0 — and the
re-classification and `has_error` flag come from that unrounded sum against
the fixed thresholds 70 and 40, independently of the configurable pre-AI
thresholds; the stored `confidence_score` is that sum rounded to two
decimals. -/
theorem C2_recombined_score (ai : List AIRecord) (r : AnalysisResult)
    (a : AIRecord) (h : aiLookup ai r.session_id = some a) :
    (recombine ai r).confidence_score =
      pyRound2 (r.phrase_detection.score * (3/10) +
        r.behavioral_patterns.score * (1/4) +
        r.sentiment_correlation.score * (1/10) + a.score * (7/20)) ∧
    (recombine ai r).confidence_level =
      (if 70 ≤ r.phrase_detection.score * (3/10) +
          r.behavioral_patterns.score * (1/4) +
          r.sentiment_correlation.score * (1/10) + a.score * (7/20)
       then "high"
       else if 40 ≤ r.phrase_detection.score * (3/10) +
          r.behavioral_patterns.score * (1/4) +
          r.sentiment_correlation.score * (1/10) + a.score * (7/20)
       then "medium" else "low") ∧
    ((recombine ai r).has_error = true ↔
      40 ≤ r.phrase_detection.score * (3/10) +
        r.behavioral_patterns.score * (1/4) +
        r.sentiment_correlation.score * (1/10) + a.score * (7/20)) ∧
    ERROR_WEIGHTS.phrase_matching + ERROR_WEIGHTS.behavioral_patterns +
      ERROR_WEIGHTS.ai_analysis + ERROR_WEIGHTS.sentiment_correlation = 1 := by
  unfold recombine
  rw [h]
  refine ⟨rfl, rfl, ?_, by norm_num [ERROR_WEIGHTS]⟩
  exact decide_eq_true_iff

theorem C2_witness :
    aiLookup [aiC2] rC2.session_id = some aiC2 ∧
    (recombine [aiC2] rC2).confidence_score =
      pyRound2 (rC2.phrase_detection.score * (3/10) +
        rC2.behavioral_patterns.score * (1/4) +
        rC2.sentiment_correlation.score * (1/10) + aiC2.score * (7/20)) :=
  ⟨rfl, (C2_recombined_score [aiC2] rC2 aiC2 rfl).1⟩

theorem pyRound2_zero : pyRound2 0 = 0 := by
  rw [pyRound2_eq_of_lt 0 0 (by norm_num) (by norm_num)]
  norm_num

def lexC1 : PhraseLexicon := ⟨[], [], []⟩

def sesC1 : Session :=
  { id := 1, status := none, started_at := none, ended_at := none,
    analyse_sentimental := none, messages := [], message_count := 0 }

/-- C1 as literally stated fails on the code: the pre-AI combined score is
not the renormalized weighted average itself but that average rounded to two
decimals before clamping. For a session with component scores 0 / 0 / 15 the
weighted average is 30/13 = 2.3077 while the stored score is 2.31. -/
theorem C1_counterexample :
    (analyze_session lexC1 ERROR_WEIGHTS ERROR_THRESHOLDS sesC1).confidence_score
      = 231/100 ∧
    ¬ ((231:ℚ)/100 = min 100
      (((detect_phrase_errors lexC1 sesC1).score * (3/10) +
        (detect_behavioral_errors sesC1).score * (1/4) +
        (detect_sentiment_errors sesC1).score * (1/10)) /
        (3/10 + 1/4 + 1/10))) := by
  have hp : (detect_phrase_errors lexC1 sesC1).score = 0 := rfl
  have hb : (detect_behavioral_errors sesC1).score = 0 := by
    show pyRound2 (if behavioralComponents sesC1 = [] then 0
      else min 100 (((behavioralComponents sesC1).map Prod.snd).sum /
        ((behavioralComponents sesC1).length : ℚ))) = 0
    rw [if_pos (show behavioralComponents sesC1 = [] from rfl)]
    exact pyRound2_zero
  have hs : (detect_sentiment_errors sesC1).score = 15 := rfl
  constructor
  · show calculate_combined_score ERROR_WEIGHTS
      (detect_phrase_errors lexC1 sesC1).score
      (detect_behavioral_errors sesC1).score
      (detect_sentiment_errors sesC1).score = 231/100
    rw [hp, hb, hs]
    simp only [calculate_combined_score, ERROR_WEIGHTS]
    norm_num
    rw [pyRound2_eq_of_gt (30/13) 230 (by norm_num) (by norm_num) (by norm_num)]
    rw [inf_eq_min, min_eq_right (by norm_num)]
    norm_num
  · rw [hp, hb, hs]
    rw [show ((0 * (3/10) + 0 * (1/4) + 15 * (1/10)) / (3/10 + 1/4 + 1/10) : ℚ)
      = 30/13 from by norm_num]
    rw [min_eq_right (by norm_num)]
    norm_num

/-- C1 amended: for every session, the pre-AI combined score is the weighted
average of the phrase, behavioral and sentiment scores over the sum of their
three weights, rounded to two decimals (Python's half-to-even round) and then
clamped to at most 100; the confidence tier comes from the configured
thresholds (high first, then medium, else low) applied to this stored score,
and `has_error` holds exactly when the stored score is at least the medium
threshold. -/
theorem C1_preai_ensemble (lex : PhraseLexicon) (w : Weights) (t : Thresholds)
    (s : Session)
    (hw : 0 < w.phrase_matching + w.behavioral_patterns + w.sentiment_correlation) :
    (analyze_session lex w t s).confidence_score =
      min 100 (pyRound2 (((detect_phrase_errors lex s).score * w.phrase_matching +
        (detect_behavioral_errors s).score * w.behavioral_patterns +
        (detect_sentiment_errors s).score * w.sentiment_correlation) /
        (w.phrase_matching + w.behavioral_patterns + w.sentiment_correlation))) ∧
    (analyze_session lex w t s).confidence_level =
      (if t.high ≤ (analyze_session lex w t s).confidence_score then "high"
       else if t.medium ≤ (analyze_session lex w t s).confidence_score
       then "medium" else "low") ∧
    ((analyze_session lex w t s).has_error = true ↔
      t.medium ≤ (analyze_session lex w t s).confidence_score) := by
  refine ⟨?_, rfl, ?_⟩
  · show calculate_combined_score w (detect_phrase_errors lex s).score
      (detect_behavioral_errors s).score (detect_sentiment_errors s).score = _
    simp only [calculate_combined_score]
    rw [if_pos hw]
  · exact decide_eq_true_iff

theorem C1_witness :
    ((0:ℚ) < ERROR_WEIGHTS.phrase_matching + ERROR_WEIGHTS.behavioral_patterns +
      ERROR_WEIGHTS.sentiment_correlation) ∧
    (analyze_session lexC1 ERROR_WEIGHTS ERROR_THRESHOLDS sesC1).confidence_score =
      min 100 (pyRound2
        (((detect_phrase_errors lexC1 sesC1).score * ERROR_WEIGHTS.phrase_matching +
          (detect_behavioral_errors sesC1).score * ERROR_WEIGHTS.behavioral_patterns +
          (detect_sentiment_errors sesC1).score * ERROR_WEIGHTS.sentiment_correlation) /
          (ERROR_WEIGHTS.phrase_matching + ERROR_WEIGHTS.behavioral_patterns +
            ERROR_WEIGHTS.sentiment_correlation))) :=
  ⟨by norm_num [ERROR_WEIGHTS],
    (C1_preai_ensemble lexC1 ERROR_WEIGHTS ERROR_THRESHOLDS sesC1
      (by norm_num [ERROR_WEIGHTS])).1⟩

theorem phrase_score_bounds (lex : PhraseLexicon) (s : Session) :
    0 ≤ (detect_phrase_errors lex s).score ∧
      (detect_phrase_errors lex s).score ≤ 100 := by
  by_cases hm : s.messages = []
  · have h : (detect_phrase_errors lex s).score = 0 := by
      unfold detect_phrase_errors
      rw [if_pos hm]
    rw [h]
    norm_num
  · have h : (detect_phrase_errors lex s).score =
        pyRound2 (if catCount lex.error_indicators s.messages +
            catCount lex.frustration_indicators s.messages +
            catCount lex.escalation_phrases s.messages = 0 then 0
          else min 100 (((catCount lex.error_indicators s.messages : ℚ) * 1 +
            (catCount lex.frustration_indicators s.messages : ℚ) * (3/2) +
            (catCount lex.escalation_phrases s.messages : ℚ) * 2) * 10)) := by
      unfold detect_phrase_errors
      rw [if_neg hm]
    rw [h]
    constructor
    · apply pyRound2_nonneg
      split_ifs
      · norm_num
      · exact le_min (by norm_num) (by positivity)
    · apply pyRound2_le_100
      split_ifs
      · norm_num
      · exact min_le_left _ _

theorem mem_ite_singleton {α : Type} {P : Prop} [Decidable P] {x c : α}
    (h : c ∈ (if P then [x] else [])) : c = x := by
  by_cases hp : P
  · rw [if_pos hp] at h
    exact List.mem_singleton.mp h
  · rw [if_neg hp] at h
    exact absurd h (List.not_mem_nil c)

theorem mem_ite_pair {α : Type} {A B : Prop} [Decidable A] [Decidable B]
    {x y c : α} (h : c ∈ (if A then [x] else if B then [y] else [])) :
    c = x ∨ c = y := by
  by_cases ha : A
  · rw [if_pos ha] at h
    exact Or.inl (List.mem_singleton.mp h)
  · rw [if_neg ha] at h
    by_cases hb : B
    · rw [if_pos hb] at h
      exact Or.inr (List.mem_singleton.mp h)
    · rw [if_neg hb] at h
      exact absurd h (List.not_mem_nil c)

theorem mem_ite_nil_singleton {α : Type} {A B : Prop} [Decidable A]
    [Decidable B] {x c : α}
    (h : c ∈ (if A then [] else if B then [x] else [])) : c = x := by
  by_cases ha : A
  · rw [if_pos ha] at h
    exact absurd h (List.not_mem_nil c)
  · rw [if_neg ha] at h
    exact mem_ite_singleton h

theorem behavioralComponents_snd_nonneg (s : Session) :
    ∀ c ∈ behavioralComponents s, 0 ≤ c.2 := by
  intro c hc
  unfold behavioralComponents at hc
  simp only [List.mem_append] at hc
  rcases hc with (((h1 | h2) | h3) | h4) | h5
  · have := mem_ite_singleton h1
    subst this
    norm_num
  · rcases hd : parsedDuration s with _ | d <;> rw [hd] at h2
    · exact absurd h2 (List.not_mem_nil c)
    · rcases mem_ite_pair h2 with h | h <;> subst h <;> norm_num
  · have := mem_ite_nil_singleton h3
    subst this
    exact Nat.cast_nonneg _
  · have := mem_ite_singleton h4
    subst this
    norm_num
  · have := mem_ite_singleton h5
    subst this
    norm_num

theorem behavioral_score_bounds (s : Session) :
    0 ≤ (detect_behavioral_errors s).score ∧
      (detect_behavioral_errors s).score ≤ 100 := by
  have h : (detect_behavioral_errors s).score =
      pyRound2 (if behavioralComponents s = [] then 0
        else min 100 (((behavioralComponents s).map Prod.snd).sum /
          ((behavioralComponents s).length : ℚ))) := rfl
  rw [h]
  constructor
  · apply pyRound2_nonneg
    split_ifs
    · norm_num
    · refine le_min (by norm_num) (div_nonneg ?_ (by positivity))
      apply List.sum_nonneg
      intro x hx
      obtain ⟨c, hc, rfl⟩ := List.mem_map.mp hx
      exact behavioralComponents_snd_nonneg s c hc
  · apply pyRound2_le_100
    split_ifs
    · norm_num
    · exact min_le_left _ _

theorem sentiment_score_bounds (s : Session) :
    0 ≤ (detect_sentiment_errors s).score ∧
      (detect_sentiment_errors s).score ≤ 100 := by
  have h : (detect_sentiment_errors s).score =
      (if pyStrip (pyLower (s.analyse_sentimental.getD "")) = "negativo" then (80:ℚ)
       else if pyStrip (pyLower (s.analyse_sentimental.getD "")) = "neutro" then 15
       else if pyStrip (pyLower (s.analyse_sentimental.getD "")) = "positivo" then 5
       else 15) := rfl
  rw [h]
  split_ifs <;> norm_num

theorem combined_score_bounds (p b se : ℚ) (hp0 : 0 ≤ p) (hb0 : 0 ≤ b)
    (hs0 : 0 ≤ se) :
    0 ≤ calculate_combined_score ERROR_WEIGHTS p b se ∧
      calculate_combined_score ERROR_WEIGHTS p b se ≤ 100 := by
  unfold calculate_combined_score
  simp only [ERROR_WEIGHTS]
  constructor
  · refine le_min (by norm_num) (pyRound2_nonneg _ ?_)
    rw [if_pos (by norm_num)]
    apply div_nonneg _ (by norm_num)
    have h1 : (0:ℚ) ≤ p * (3/10) := by linarith
    have h2 : (0:ℚ) ≤ b * (1/4) := by linarith
    have h3 : (0:ℚ) ≤ se * (1/10) := by linarith
    linarith
  · exact min_le_left _ _

theorem recombine_score_bounds (ai : List AIRecord) (r : AnalysisResult)
    (hai : ∀ a ∈ ai, 0 ≤ a.score ∧ a.score ≤ 100)
    (hp : 0 ≤ r.phrase_detection.score ∧ r.phrase_detection.score ≤ 100)
    (hb : 0 ≤ r.behavioral_patterns.score ∧ r.behavioral_patterns.score ≤ 100)
    (hs : 0 ≤ r.sentiment_correlation.score ∧ r.sentiment_correlation.score ≤ 100)
    (hcs : 0 ≤ r.confidence_score ∧ r.confidence_score ≤ 100) :
    0 ≤ (recombine ai r).confidence_score ∧
      (recombine ai r).confidence_score ≤ 100 := by
  unfold recombine
  cases hl : aiLookup ai r.session_id with
  | none => exact hcs
  | some a =>
    have ha := hai a (aiLookup_mem ai r.session_id a hl)
    show 0 ≤ pyRound2 (r.phrase_detection.score * ERROR_WEIGHTS.phrase_matching +
        r.behavioral_patterns.score * ERROR_WEIGHTS.behavioral_patterns +
        r.sentiment_correlation.score * ERROR_WEIGHTS.sentiment_correlation +
        a.score * ERROR_WEIGHTS.ai_analysis) ∧ _
    simp only [ERROR_WEIGHTS]
    constructor
    · apply pyRound2_nonneg
      have h1 : (0:ℚ) ≤ r.phrase_detection.score * (3/10) := by
        have := hp.1
        linarith
      have h2 : (0:ℚ) ≤ r.behavioral_patterns.score * (1/4) := by
        have := hb.1
        linarith
      have h3 : (0:ℚ) ≤ r.sentiment_correlation.score * (1/10) := by
        have := hs.1
        linarith
      have h4 : (0:ℚ) ≤ a.score * (7/20) := by
        have := ha.1
        linarith
      linarith
    · apply pyRound2_le_100
      have h1 : r.phrase_detection.score * (3/10) ≤ 30 := by
        have := hp.2
        linarith
      have h2 : r.behavioral_patterns.score * (1/4) ≤ 25 := by
        have := hb.2
        linarith
      have h3 : r.sentiment_correlation.score * (1/10) ≤ 10 := by
        have := hs.2
        linarith
      have h4 : a.score * (7/20) ≤ 35 := by
        have := ha.2
        linarith
      linarith

/-- C3: every component score (phrase, behavioral, sentiment) lies in
[0,100]; so do the pre-AI combined score and, provided the external AI
judgments respect their declared 0-100 score interface, the post-AI
recombined score. -/
theorem C3_scores_bounded (lex : PhraseLexicon) (s : Session)
    (ai : List AIRecord) (hai : ∀ a ∈ ai, 0 ≤ a.score ∧ a.score ≤ 100) :
    (0 ≤ (detect_phrase_errors lex s).score ∧
      (detect_phrase_errors lex s).score ≤ 100) ∧
    (0 ≤ (detect_behavioral_errors s).score ∧
      (detect_behavioral_errors s).score ≤ 100) ∧
    (0 ≤ (detect_sentiment_errors s).score ∧
      (detect_sentiment_errors s).score ≤ 100) ∧
    (0 ≤ (analyze_session lex ERROR_WEIGHTS ERROR_THRESHOLDS s).confidence_score ∧
      (analyze_session lex ERROR_WEIGHTS ERROR_THRESHOLDS s).confidence_score ≤ 100) ∧
    (0 ≤ (recombine ai
        (analyze_session lex ERROR_WEIGHTS ERROR_THRESHOLDS s)).confidence_score ∧
      (recombine ai
        (analyze_session lex ERROR_WEIGHTS ERROR_THRESHOLDS s)).confidence_score ≤ 100) := by
  have h1 := phrase_score_bounds lex s
  have h2 := behavioral_score_bounds s
  have h3 := sentiment_score_bounds s
  have h4 : 0 ≤ (analyze_session lex ERROR_WEIGHTS ERROR_THRESHOLDS s).confidence_score ∧
      (analyze_session lex ERROR_WEIGHTS ERROR_THRESHOLDS s).confidence_score ≤ 100 :=
    combined_score_bounds _ _ _ h1.1 h2.1 h3.1
  exact ⟨h1, h2, h3, h4, recombine_score_bounds ai _ hai h1 h2 h3 h4⟩

def aiW3 : AIRecord := { session_id := 3, analyzed := true, score := 50 }

def lexW3 : PhraseLexicon := ⟨["erro"], [], []⟩

def sesW3 : Session :=
  { id := 3, status := some "completed", started_at := none, ended_at := none,
    analyse_sentimental := some "Neutro",
    messages := [⟨"human", "teve um erro"⟩], message_count := 1 }

theorem C3_witness :
    (∀ a ∈ [aiW3], 0 ≤ a.score ∧ a.score ≤ 100) ∧
    (0 ≤ (recombine [aiW3]
        (analyze_session lexW3 ERROR_WEIGHTS ERROR_THRESHOLDS sesW3)).confidence_score ∧
      (recombine [aiW3]
        (analyze_session lexW3 ERROR_WEIGHTS ERROR_THRESHOLDS sesW3)).confidence_score ≤ 100) :=
  ⟨by decide, (C3_scores_bounded lexW3 sesW3 [aiW3] (by decide)).2.2.2.2⟩

def sesC4 : Session :=
  { id := 4, status := some "active", started_at := some 0, ended_at := some 60,
    analyse_sentimental := none, messages := [], message_count := 2 }

theorem sesC4_components :
    behavioralComponents sesC4 =
      [("short_conversation", 30), ("rapid_abandonment", 40),
        ("no_sentiment_analysis", 10)] := by
  have hd : parsedDuration sesC4 = some 60 := by
    show some ((60:ℚ) - 0) = some 60
    norm_num
  unfold behavioralComponents
  rw [hd]
  decide

/-- C4 as literally stated fails on the code: the behavioral score is not the
clamped arithmetic mean itself but that mean rounded to two decimals. A
session triggering short_conversation (30), rapid_abandonment (40) and
no_sentiment_analysis (10) has mean 80/3 = 26.666... but stored score 26.67. -/
theorem C4_counterexample :
    (detect_behavioral_errors sesC4).score = 2667/100 ∧
    ¬ ((2667:ℚ)/100 = min 100 (((behavioralComponents sesC4).map Prod.snd).sum /
      ((behavioralComponents sesC4).length : ℚ))) := by
  have hmean : min 100 (((behavioralComponents sesC4).map Prod.snd).sum /
      ((behavioralComponents sesC4).length : ℚ)) = 80/3 := by
    rw [sesC4_components]
    show min 100 (((30:ℚ) + (40 + (10 + 0))) / (3:ℕ)) = 80/3
    rw [min_eq_right (by norm_num)]
    norm_num
  constructor
  · show pyRound2 (if behavioralComponents sesC4 = [] then 0
      else min 100 (((behavioralComponents sesC4).map Prod.snd).sum /
        ((behavioralComponents sesC4).length : ℚ))) = 2667/100
    rw [if_neg (by rw [sesC4_components]; simp)]
    rw [hmean]
    rw [pyRound2_eq_of_gt (80/3) 2666 (by norm_num) (by norm_num) (by norm_num)]
    norm_num
  · rw [hmean]
    norm_num

/-- C4 amended: the behavioral score is the arithmetic mean (not the sum) of
the fixed contributions of the triggered patterns, clamped to at most 100 and
then rounded to two decimals; a session triggering zero patterns scores
exactly 0. -/
theorem C4_behavioral_mean (s : Session) :
    (behavioralComponents s = [] → (detect_behavioral_errors s).score = 0) ∧
    (behavioralComponents s ≠ [] → (detect_behavioral_errors s).score =
      pyRound2 (min 100 (((behavioralComponents s).map Prod.snd).sum /
        ((behavioralComponents s).length : ℚ)))) := by
  constructor
  · intro h
    show pyRound2 (if behavioralComponents s = [] then 0
      else min 100 (((behavioralComponents s).map Prod.snd).sum /
        ((behavioralComponents s).length : ℚ))) = 0
    rw [if_pos h]
    exact pyRound2_zero
  · intro h
    show pyRound2 (if behavioralComponents s = [] then 0
      else min 100 (((behavioralComponents s).map Prod.snd).sum /
        ((behavioralComponents s).length : ℚ))) = _
    rw [if_neg h]

theorem C4_witness :
    behavioralComponents sesC4 ≠ [] ∧
    (detect_behavioral_errors sesC4).score =
      pyRound2 (min 100 (((behavioralComponents sesC4).map Prod.snd).sum /
        ((behavioralComponents sesC4).length : ℚ))) := by
  have hne : behavioralComponents sesC4 ≠ [] := by
    rw [sesC4_components]
    simp
  exact ⟨hne, (C4_behavioral_mean sesC4).2 hne⟩

/-- C5: the phrase matcher is a pure function of session content. A session
with no messages scores exactly 0; in general the stored score is the
severity-weighted category hit-count sum (error x1, frustration x1.5,
escalation x2) scaled by 10 and clamped to 100 (the two-decimal round is the
identity here since every such value has at most one decimal digit times 5);
the result is invariant under permutation of the messages; and hit counts are
additive over message concatenation, so a phrase occurring in two different
messages counts twice. -/
theorem C5_phrase_matcher (lex : PhraseLexicon) (s s2 : Session)
    (ph : List String) (l1 l2 : List Msg) :
    (s.messages = [] → (detect_phrase_errors lex s).score = 0) ∧
    ((detect_phrase_errors lex s).score =
      pyRound2 (if catCount lex.error_indicators s.messages +
          catCount lex.frustration_indicators s.messages +
          catCount lex.escalation_phrases s.messages = 0 then 0
        else min 100 (((catCount lex.error_indicators s.messages : ℚ) * 1 +
          (catCount lex.frustration_indicators s.messages : ℚ) * (3/2) +
          (catCount lex.escalation_phrases s.messages : ℚ) * 2) * 10))) ∧
    (s2.messages.Perm s.messages →
      (detect_phrase_errors lex s2).score = (detect_phrase_errors lex s).score) ∧
    catCount ph (l1 ++ l2) = catCount ph l1 + catCount ph l2 := by
  have hcat : ∀ (phl : List String) (m1 m2 : List Msg), m1.Perm m2 →
      catCount phl m1 = catCount phl m2 := by
    intro phl m1 m2 hp
    unfold catCount
    exact (hp.map (msgMatchCount phl)).sum_eq
  have hform : ∀ st : Session, (detect_phrase_errors lex st).score =
      pyRound2 (if catCount lex.error_indicators st.messages +
          catCount lex.frustration_indicators st.messages +
          catCount lex.escalation_phrases st.messages = 0 then 0
        else min 100 (((catCount lex.error_indicators st.messages : ℚ) * 1 +
          (catCount lex.frustration_indicators st.messages : ℚ) * (3/2) +
          (catCount lex.escalation_phrases st.messages : ℚ) * 2) * 10)) := by
    intro st
    by_cases hm : st.messages = []
    · have h0 : (detect_phrase_errors lex st).score = 0 := by
        unfold detect_phrase_errors
        rw [if_pos hm]
      rw [h0, hm]
      rw [if_pos (show catCount lex.error_indicators [] +
        catCount lex.frustration_indicators [] +
        catCount lex.escalation_phrases [] = 0 from rfl)]
      exact pyRound2_zero.symm
    · unfold detect_phrase_errors
      rw [if_neg hm]
  refine ⟨?_, hform s, ?_, ?_⟩
  · intro hm
    unfold detect_phrase_errors
    rw [if_pos hm]
  · intro hp
    rw [hform s, hform s2]
    rw [hcat lex.error_indicators s2.messages s.messages hp,
      hcat lex.frustration_indicators s2.messages s.messages hp,
      hcat lex.escalation_phrases s2.messages s.messages hp]
  · unfold catCount
    rw [List.map_append, List.sum_append]

def lexW5 : PhraseLexicon := ⟨["erro"], [], ["falar com atendente"]⟩

def sesW5a : Session :=
  { id := 5, status := some "completed", started_at := none, ended_at := none,
    analyse_sentimental := some "Negativo",
    messages := [⟨"human", "Deu ERRO no pagamento"⟩, ⟨"ai", "vou verificar"⟩],
    message_count := 2 }

def sesW5b : Session :=
  { id := 5, status := some "completed", started_at := none, ended_at := none,
    analyse_sentimental := some "Negativo",
    messages := [⟨"ai", "vou verificar"⟩, ⟨"human", "Deu ERRO no pagamento"⟩],
    message_count := 2 }

theorem C5_witness :
    sesW5b.messages.Perm sesW5a.messages ∧
    (detect_phrase_errors lexW5 sesW5b).score =
      (detect_phrase_errors lexW5 sesW5a).score :=
  ⟨by decide, (C5_phrase_matcher lexW5 sesW5a sesW5b [] [] []).2.2.1 (by decide)⟩

theorem map_eraseIdx {α β : Type} (f : α → β) :
    ∀ (l : List α) (i : ℕ), (l.eraseIdx i).map f = (l.map f).eraseIdx i := by
  intro l
  induction l with
  | nil => intro i; rfl
  | cons a t ih =>
    intro i
    cases i with
    | zero => rfl
    | succ j => simp [List.eraseIdx, ih]

theorem get_not_mem_eraseIdx {β : Type} :
    ∀ (l : List β) (i : ℕ) (h : i < l.length), l.Nodup →
      l.get ⟨i, h⟩ ∉ l.eraseIdx i := by
  intro l
  induction l with
  | nil => intro i h; simp at h
  | cons a t ih =>
    intro i h hnd
    cases i with
    | zero =>
      simp only [List.get, List.eraseIdx]
      exact (List.nodup_cons.mp hnd).1
    | succ j =>
      simp only [List.get, List.eraseIdx, List.mem_cons]
      push_neg
      constructor
      · intro heq
        exact (List.nodup_cons.mp hnd).1
          (heq ▸ List.get_mem t j (by simpa using h))
      · exact ih j (by simpa using h) (List.nodup_cons.mp hnd).2

theorem randomSample_mem {α : Type} :
    ∀ (k : ℕ) (pop : List α) (g : RState) (x : α),
      x ∈ (randomSample k pop g).1 → x ∈ pop := by
  intro k
  induction k with
  | zero =>
    intro pop g x hx
    exact absurd hx (List.not_mem_nil x)
  | succ n ih =>
    intro pop g x hx
    unfold randomSample at hx
    by_cases h : 0 < pop.length
    · rw [dif_pos h] at hx
      dsimp only at hx
      rcases List.mem_cons.mp hx with h1 | h1
      · subst h1
        exact List.get_mem pop _ _
      · exact (List.eraseIdx_sublist pop _).subset (ih _ _ x h1)
    · rw [dif_neg h] at hx
      exact absurd hx (List.not_mem_nil x)

theorem randomSample_nodup {α β : Type} (f : α → β) :
    ∀ (k : ℕ) (pop : List α) (g : RState), (pop.map f).Nodup →
      (((randomSample k pop g).1).map f).Nodup := by
  intro k
  induction k with
  | zero =>
    intro pop g _
    exact List.nodup_nil
  | succ n ih =>
    intro pop g hnd
    unfold randomSample
    by_cases h : 0 < pop.length
    · rw [dif_pos h]
      dsimp only
      rw [List.map_cons, List.nodup_cons]
      constructor
      · intro hmem
        obtain ⟨y, hy, hfy⟩ := List.mem_map.mp hmem
        have hy2 := randomSample_mem n _ _ y hy
        have hmem2 : f y ∈ (pop.map f).eraseIdx (lcgNext g % pop.length) := by
          rw [← map_eraseIdx]
          exact List.mem_map_of_mem f hy2
        rw [hfy] at hmem2
        have hlt : lcgNext g % pop.length < (pop.map f).length := by
          rw [List.length_map]
          exact Nat.mod_lt _ h
        have hget : (pop.map f).get ⟨lcgNext g % pop.length, hlt⟩ =
            f (pop.get ⟨lcgNext g % pop.length, Nat.mod_lt _ h⟩) := by
          simp [List.get_map]
        exact get_not_mem_eraseIdx (pop.map f) _ hlt hnd (hget ▸ hmem2)
      · apply ih
        rw [map_eraseIdx]
        exact hnd.sublist (List.eraseIdx_sublist _ _)
    · rw [dif_neg h]
      exact List.nodup_nil

theorem dictLookup_id (sessions : List Session) (sid : ℕ) (x : Session)
    (h : dictLookup sessions sid = some x) : x.id = sid := by
  unfold dictLookup at h
  have := List.find?_some h
  exact beq_iff_eq.mp this

theorem dictLookup_mem (sessions : List Session) (sid : ℕ) (x : Session)
    (h : dictLookup sessions sid = some x) : x ∈ sessions := by
  unfold dictLookup at h
  have := List.mem_of_find?_eq_some h
  exact List.mem_reverse.mp this

/-- Invariant carried through the five priority steps: the selected ids are
distinct and every selected session comes from the population. -/
def SelInv (sessions sel : List Session) : Prop :=
  (sessionIds sel).Nodup ∧ ∀ x ∈ sel, x ∈ sessions

theorem selInv_append (sessions sel new : List Session)
    (h : SelInv sessions sel) (hn : (sessionIds new).Nodup)
    (hmem : ∀ x ∈ new, x ∈ sessions)
    (hdisj : ∀ x ∈ new, x.id ∉ sessionIds sel) :
    SelInv sessions (sel ++ new) := by
  constructor
  · show ((sel ++ new).map Session.id).Nodup
    rw [List.map_append]
    rw [List.nodup_append]
    refine ⟨h.1, hn, ?_⟩
    intro a ha hb
    obtain ⟨x, hx, rfl⟩ := List.mem_map.mp hb
    exact hdisj x hx ha
  · intro x hx
    rcases List.mem_append.mp hx with h1 | h1
    · exact h.2 x h1
    · exact hmem x h1

theorem filterMap_lookup_sublist
    (results : List AnalysisResult) (f : AnalysisResult → Option Session)
    (hf : ∀ r x, f r = some x → x.id = r.session_id) :
    List.Sublist ((results.filterMap f).map Session.id)
      (results.map AnalysisResult.session_id) := by
  induction results with
  | nil => simp
  | cons r t ih =>
    cases hfr : f r with
    | none =>
      simp only [List.filterMap_cons, hfr, List.map_cons]
      exact ih.cons _
    | some x =>
      simp only [List.filterMap_cons, hfr, List.map_cons]
      rw [hf r x hfr]
      exact ih.cons₂ _

theorem selPriority1_inv (sessions : List Session)
    (results : List AnalysisResult)
    (hres : (results.map AnalysisResult.session_id).Nodup) :
    SelInv sessions (selPriority1 sessions results) := by
  constructor
  · apply hres.sublist
    apply filterMap_lookup_sublist
    intro r x hx
    split_ifs at hx with h
    exact dictLookup_id sessions r.session_id x hx
  · intro x hx
    obtain ⟨r, _, hfr⟩ := List.mem_filterMap.mp hx
    split_ifs at hfr with h
    exact dictLookup_mem sessions r.session_id x hfr

theorem notMem_of_decide_filter (sel : List Session) (x : Session) (b : Bool)
    (h : (b && !(decide (x.id ∈ sessionIds sel))) = true) :
    x.id ∉ sessionIds sel := by
  have h2 := (Bool.and_eq_true _ _).mp h |>.2
  rw [Bool.not_eq_true'] at h2
  exact of_decide_eq_false h2

theorem filter_step_inv (sessions sel : List Session)
    (hsess : (sessionIds sessions).Nodup) (p : Session → Bool)
    (hp : ∀ x, p x = true → x.id ∉ sessionIds sel) :
    (sessionIds (sessions.filter p)).Nodup ∧
    (∀ x ∈ sessions.filter p, x ∈ sessions) ∧
    (∀ x ∈ sessions.filter p, x.id ∉ sessionIds sel) := by
  refine ⟨hsess.sublist ((List.filter_sublist sessions).map Session.id), ?_, ?_⟩
  · intro x hx
    exact List.mem_of_mem_filter hx
  · intro x hx
    exact hp x (List.of_mem_filter hx)

theorem selStage2_inv (sessions : List Session) (results : List AnalysisResult)
    (hsess : (sessionIds sessions).Nodup)
    (hres : (results.map AnalysisResult.session_id).Nodup) :
    SelInv sessions (selStage2 sessions results) := by
  have h1 := selPriority1_inv sessions results hres
  have h2 := filter_step_inv sessions (selPriority1 sessions results) hsess
    (fun s => decide (s.analyse_sentimental = some "Negativo") &&
      !(decide (s.id ∈ sessionIds (selPriority1 sessions results))))
    (fun x hx => notMem_of_decide_filter _ x _ hx)
  exact selInv_append sessions _ _ h1 h2.1 h2.2.1 h2.2.2

theorem mediumCandidates_inv (sessions : List Session)
    (results : List AnalysisResult) (sel : List Session)
    (hres : (results.map AnalysisResult.session_id).Nodup) :
    (sessionIds (mediumCandidates sessions results sel)).Nodup ∧
    (∀ x ∈ mediumCandidates sessions results sel, x ∈ sessions) ∧
    (∀ x ∈ mediumCandidates sessions results sel, x.id ∉ sessionIds sel) := by
  refine ⟨?_, ?_, ?_⟩
  · apply hres.sublist
    apply filterMap_lookup_sublist
    intro r x hx
    split_ifs at hx with h
    exact dictLookup_id sessions r.session_id x hx
  · intro x hx
    obtain ⟨r, _, hfr⟩ := List.mem_filterMap.mp hx
    split_ifs at hfr with h
    exact dictLookup_mem sessions r.session_id x hfr
  · intro x hx
    obtain ⟨r, _, hfr⟩ := List.mem_filterMap.mp hx
    split_ifs at hfr with h
    rw [dictLookup_id sessions r.session_id x hfr]
    exact h.2.2

theorem sample_step_inv (sessions sel pop : List Session) (k : ℕ) (g : RState)
    (hn : (sessionIds pop).Nodup) (hmem : ∀ x ∈ pop, x ∈ sessions)
    (hdisj : ∀ x ∈ pop, x.id ∉ sessionIds sel)
    (hinv : SelInv sessions sel) :
    SelInv sessions (sel ++ (randomSample k pop g).1) := by
  apply selInv_append sessions sel _ hinv
  · exact randomSample_nodup Session.id k pop g hn
  · intro x hx
    exact hmem x (randomSample_mem k pop g x hx)
  · intro x hx
    exact hdisj x (randomSample_mem k pop g x hx)

theorem selStage3_inv (sessions : List Session) (results : List AnalysisResult)
    (hsess : (sessionIds sessions).Nodup)
    (hres : (results.map AnalysisResult.session_id).Nodup) :
    SelInv sessions (selStage3 sessions results) := by
  have h2 := selStage2_inv sessions results hsess hres
  have hm := mediumCandidates_inv sessions results (selStage2 sessions results) hres
  exact sample_step_inv sessions _ _ _ _ hm.1 hm.2.1 hm.2.2 h2

theorem selStage4_inv (sessions : List Session) (results : List AnalysisResult)
    (hsess : (sessionIds sessions).Nodup)
    (hres : (results.map AnalysisResult.session_id).Nodup) :
    SelInv sessions (selStage4 sessions results) := by
  have h3 := selStage3_inv sessions results hsess hres
  have hn := filter_step_inv sessions (selStage3 sessions results) hsess
    (fun s => decide (s.analyse_sentimental = some "Neutro") &&
      !(decide (s.id ∈ sessionIds (selStage3 sessions results))))
    (fun x hx => notMem_of_decide_filter _ x _ hx)
  exact sample_step_inv sessions _ _ _ _ hn.1 hn.2.1 hn.2.2 h3

theorem select_inv (rate : ℚ) (sessions : List Session)
    (results : List AnalysisResult) (g : RState)
    (hsess : (sessionIds sessions).Nodup)
    (hres : (results.map AnalysisResult.session_id).Nodup) :
    SelInv sessions (select_sessions_for_analysis rate sessions results g).1 := by
  have h4 := selStage4_inv sessions results hsess hres
  unfold select_sessions_for_analysis
  split_ifs with ht
  · show SelInv sessions (selStage4 sessions results ++ (selSample5 rate sessions results).1)
    have hr := filter_step_inv sessions (selStage4 sessions results) hsess
      (fun s => !(decide (s.id ∈ sessionIds (selStage4 sessions results))))
      (fun x hx => by
        rw [Bool.not_eq_true'] at hx
        exact of_decide_eq_false hx)
    unfold selSample5
    exact sample_step_inv sessions _ _ _ _ hr.1 hr.2.1 hr.2.2 h4
  · exact h4

theorem nodup_subset_length_le (l1 l2 : List ℕ) (h1 : l1.Nodup)
    (hsub : ∀ a ∈ l1, a ∈ l2) : l1.length ≤ l2.length := by
  rw [← List.toFinset_card_of_nodup h1]
  calc l1.toFinset.card
      ≤ l2.toFinset.card := Finset.card_le_card (fun a ha =>
        List.mem_toFinset.mpr (hsub a (List.mem_toFinset.mp ha)))
    _ ≤ l2.length := l2.toFinset_card_le

theorem analyzeAll_sids (lex : PhraseLexicon) (sessions : List Session) :
    (sessions.map (analyze_session lex ERROR_WEIGHTS ERROR_THRESHOLDS)).map
      AnalysisResult.session_id = sessionIds sessions := by
  rw [List.map_map]
  exact List.map_congr_left (fun s _ => rfl)

/-- C7 amended: for every population with distinct session identifiers and
the per-session results produced by the error detector, the selection
contains no duplicate identifiers (each priority step excludes sessions
already selected by a prior step) and its size is bounded by the population
size. The configured target rate does not bound the selection: the first two
priority steps select all high-confidence and negative-sentiment sessions
unconditionally, and the target only drives the top-up of step five. -/
theorem C7_selection_nodup_bounded (lex : PhraseLexicon) (rate : ℚ)
    (sessions : List Session) (results : List AnalysisResult) (g : RState)
    (hsess : (sessionIds sessions).Nodup)
    (hres : results =
      sessions.map (analyze_session lex ERROR_WEIGHTS ERROR_THRESHOLDS)) :
    (sessionIds (select_sessions_for_analysis rate sessions results g).1).Nodup ∧
    (select_sessions_for_analysis rate sessions results g).1.length ≤
      sessions.length := by
  have hres2 : (results.map AnalysisResult.session_id).Nodup := by
    rw [hres, analyzeAll_sids]
    exact hsess
  have hinv := select_inv rate sessions results g hsess hres2
  refine ⟨hinv.1, ?_⟩
  have hlen : (sessionIds
      (select_sessions_for_analysis rate sessions results g).1).length ≤
      (sessionIds sessions).length := by
    apply nodup_subset_length_le _ _ hinv.1
    intro a ha
    obtain ⟨x, hx, rfl⟩ := List.mem_map.mp ha
    exact List.mem_map_of_mem Session.id (hinv.2 x hx)
  simpa [sessionIds, List.length_map] using hlen

def lexC7 : PhraseLexicon := ⟨[], [], ["erro"]⟩

def sesC7 : Session :=
  { id := 11, status := some "failed", started_at := none, ended_at := none,
    analyse_sentimental := some "Negativo",
    messages := [⟨"ai", "erro"⟩, ⟨"ai", "erro"⟩, ⟨"ai", "erro"⟩,
      ⟨"ai", "erro"⟩, ⟨"ai", "erro"⟩],
    message_count := 5 }

def resultsC7 : List AnalysisResult :=
  [sesC7].map (analyze_session lexC7 ERROR_WEIGHTS ERROR_THRESHOLDS)

theorem sesC7_phrase : (detect_phrase_errors lexC7 sesC7).score = 100 := by
  have h1 : catCount lexC7.error_indicators sesC7.messages = 0 := by decide
  have h2 : catCount lexC7.frustration_indicators sesC7.messages = 0 := by decide
  have h3 : catCount lexC7.escalation_phrases sesC7.messages = 5 := by decide
  show pyRound2 (if catCount lexC7.error_indicators sesC7.messages +
      catCount lexC7.frustration_indicators sesC7.messages +
      catCount lexC7.escalation_phrases sesC7.messages = 0 then 0
    else min 100 (((catCount lexC7.error_indicators sesC7.messages : ℚ) * 1 +
      (catCount lexC7.frustration_indicators sesC7.messages : ℚ) * (3/2) +
      (catCount lexC7.escalation_phrases sesC7.messages : ℚ) * 2) * 10)) = 100
  rw [h1, h2, h3]
  rw [if_neg (by norm_num)]
  rw [show (((0:ℕ) : ℚ) * 1 + ((0:ℕ) : ℚ) * (3/2) + ((5:ℕ) : ℚ) * 2) * 10 = 100
    from by norm_num]
  rw [min_self]
  rw [pyRound2_eq_of_lt 100 10000 (by norm_num) (by norm_num)]
  norm_num

theorem sesC7_behavioral : (detect_behavioral_errors sesC7).score = 50 := by
  have hbc : behavioralComponents sesC7 = [("failed_session", 50)] := by decide
  show pyRound2 (if behavioralComponents sesC7 = [] then 0
    else min 100 (((behavioralComponents sesC7).map Prod.snd).sum /
      ((behavioralComponents sesC7).length : ℚ))) = 50
  rw [hbc]
  rw [if_neg (by simp)]
  rw [show (([("failed_session", (50:ℚ))].map Prod.snd).sum /
    (([("failed_session", (50:ℚ))].length : ℕ) : ℚ)) = 50 from by
      simp
  ]
  rw [min_eq_right (by norm_num)]
  rw [pyRound2_eq_of_lt 50 5000 (by norm_num) (by norm_num)]
  norm_num

theorem sesC7_combined :
    calculate_combined_score ERROR_WEIGHTS (detect_phrase_errors lexC7 sesC7).score
      (detect_behavioral_errors sesC7).score
      (detect_sentiment_errors sesC7).score = 7769/100 := by
  rw [sesC7_phrase, sesC7_behavioral]
  rw [show (detect_sentiment_errors sesC7).score = 80 from rfl]
  simp only [calculate_combined_score, ERROR_WEIGHTS]
  norm_num
  rw [pyRound2_eq_of_lt (1010/13) 7769 (by norm_num) (by norm_num)]
  rw [inf_eq_min, min_eq_right (by norm_num)]
  norm_num

theorem sesC7_level :
    (analyze_session lexC7 ERROR_WEIGHTS ERROR_THRESHOLDS sesC7).confidence_level
      = "high" := by
  show (if ERROR_THRESHOLDS.high ≤ calculate_combined_score ERROR_WEIGHTS
      (detect_phrase_errors lexC7 sesC7).score
      (detect_behavioral_errors sesC7).score
      (detect_sentiment_errors sesC7).score then "high"
    else if ERROR_THRESHOLDS.medium ≤ calculate_combined_score ERROR_WEIGHTS
      (detect_phrase_errors lexC7 sesC7).score
      (detect_behavioral_errors sesC7).score
      (detect_sentiment_errors sesC7).score then "medium" else "low") = "high"
  rw [sesC7_combined]
  rw [if_pos (by norm_num [ERROR_THRESHOLDS])]

theorem sesC7_selected :
    (select_sessions_for_analysis ERROR_DETECTION_SAMPLE_RATE [sesC7]
      resultsC7 0).1 = [sesC7] := by
  have h1 : selPriority1 [sesC7] resultsC7 = [sesC7] := by
    unfold selPriority1 resultsC7
    simp only [List.map_cons, List.map_nil, List.filterMap_cons,
      List.filterMap_nil]
    rw [if_pos sesC7_level]
    rfl
  have h2 : selStage2 [sesC7] resultsC7 = [sesC7] := by
    unfold selStage2 selPriority2
    rw [h1]
    rfl
  have h3 : mediumCandidates [sesC7] resultsC7 (selStage2 [sesC7] resultsC7)
      = [] := by
    rw [h2]
    unfold mediumCandidates resultsC7
    simp only [List.map_cons, List.map_nil, List.filterMap_cons,
      List.filterMap_nil]
    rw [if_neg (fun hcond => by
      rw [sesC7_level] at hcond
      exact absurd hcond.1 (by decide))]
  have h4 : selStage3 [sesC7] resultsC7 = [sesC7] := by
    unfold selStage3 selSample3
    rw [h3, h2]
    rfl
  have h5 : neutralCandidates [sesC7] (selStage3 [sesC7] resultsC7) = [] := by
    rw [h4]
    rfl
  have h6 : selStage4 [sesC7] resultsC7 = [sesC7] := by
    unfold selStage4 selSample4
    rw [h5, h4]
    rfl
  have h7 : selTarget ERROR_DETECTION_SAMPLE_RATE [sesC7] = 0 := by
    unfold selTarget ERROR_DETECTION_SAMPLE_RATE
    rw [show ((([sesC7] : List Session).length : ℚ) * (3/20)) = 3/20 from by
      norm_num]
    rw [show ⌊(3/20 : ℚ)⌋ = 0 from by
      rw [Int.floor_eq_zero_iff]
      constructor <;> norm_num]
    rfl
  unfold select_sessions_for_analysis
  rw [h7, h6]
  rw [if_neg (by decide)]

/-- C7 as literally stated fails on the code: the selection size is not
bounded by the target rate times the population size. A population of one
high-confidence session is selected whole (size 1) although the target is
int(1 x 0.15) = 0; the rate only drives the top-up of priority step five. -/
theorem C7_counterexample :
    (select_sessions_for_analysis ERROR_DETECTION_SAMPLE_RATE [sesC7]
      resultsC7 0).1.length = 1 ∧
    ¬ (((select_sessions_for_analysis ERROR_DETECTION_SAMPLE_RATE [sesC7]
      resultsC7 0).1.length : ℚ) ≤
      ERROR_DETECTION_SAMPLE_RATE * (([sesC7] : List Session).length : ℚ)) := by
  rw [sesC7_selected]
  constructor
  · rfl
  · norm_num [ERROR_DETECTION_SAMPLE_RATE]

def lexW7 : PhraseLexicon := ⟨[], [], []⟩

def sesW7a : Session :=
  { id := 21, status := some "completed", started_at := none, ended_at := none,
    analyse_sentimental := some "Positivo", messages := [], message_count := 0 }

def sesW7b : Session :=
  { id := 22, status := some "failed", started_at := none, ended_at := none,
    analyse_sentimental := some "Negativo", messages := [], message_count := 0 }

def resultsW7 : List AnalysisResult :=
  [sesW7a, sesW7b].map (analyze_session lexW7 ERROR_WEIGHTS ERROR_THRESHOLDS)

theorem C7_witness :
    (sessionIds (select_sessions_for_analysis ERROR_DETECTION_SAMPLE_RATE
      [sesW7a, sesW7b] resultsW7 0).1).Nodup ∧
    (select_sessions_for_analysis ERROR_DETECTION_SAMPLE_RATE
      [sesW7a, sesW7b] resultsW7 0).1.length ≤
      ([sesW7a, sesW7b] : List Session).length :=
  C7_selection_nodup_bounded lexW7 ERROR_DETECTION_SAMPLE_RATE
    [sesW7a, sesW7b] resultsW7 0 (by decide) rfl
